import Mathlib

/-!
Verification of the MCP gateway service of libre-webui
(`backend/src/services/mcpService.ts` together with
`backend/src/types/mcpTypes.ts`).

The service is embedded shallowly: the `McpService` class becomes a pure
state-transition system over `McpState` (the `connections` map plus
instrumentation recording resource events), and every external async
outcome (transport handshake, the three capability list calls, tool
call / resource read results) is supplied by an explicit environment
record.  Thrown JavaScript `Error` objects are modelled by their message
strings, and fallible operations return `Except String`.
-/

namespace LibreWebUI

/-- Opaque JSON payload (tool input/output schemas, tool arguments,
content `data` fields).  The service never inspects these values, only
passes them through, so they are modelled by their serialized text. -/
structure JsonValue where
  raw : String
  deriving DecidableEq, Repr

/-- `z.enum(['stdio', 'sse', 'websocket'])` of `McpServerConfigSchema`. -/
inductive McpTransportType where
  | stdio
  | sse
  | websocket
  deriving DecidableEq, Repr, Inhabited

/-- `z.enum(['connected', 'disconnected', 'connecting', 'error'])` of
`McpServerStatusSchema`. -/
inductive McpStatusKind where
  | connected
  | disconnected
  | connecting
  | error
  deriving DecidableEq, Repr, Inhabited

/-- `McpServerConfig` (from `McpServerConfigSchema`). -/
structure McpServerConfig where
  id : String
  name : String
  description : Option String := none
  enabled : Bool := true
  type : McpTransportType := McpTransportType.stdio
  command : Option String := none
  args : Option (List String) := none
  url : Option String := none
  env : Option (List (String × String)) := none
  timeout : Nat := 30000
  maxRetries : Nat := 3
  created_at : Option String := none
  updated_at : Option String := none
  deriving DecidableEq, Repr, Inhabited

/-- The `annotations` object carried on a tool descriptor. -/
structure McpToolAnnotations where
  title : Option String := none
  readOnlyHint : Option Bool := none
  openWorldHint : Option Bool := none
  deriving DecidableEq, Repr

/-- `McpTool`: a tool descriptor tagged with its owning server id. -/
structure McpTool where
  name : String
  title : Option String := none
  description : Option String := none
  inputSchema : Option JsonValue := none
  outputSchema : Option JsonValue := none
  annotations : Option McpToolAnnotations := none
  serverId : String
  deriving DecidableEq, Repr

/-- `McpResource`: a resource descriptor tagged with its owning server id. -/
structure McpResource where
  uri : String
  name : String
  title : Option String := none
  description : Option String := none
  mimeType : Option String := none
  serverId : String
  deriving DecidableEq, Repr

/-- One named argument of a prompt descriptor. -/
structure McpPromptArgument where
  name : String
  description : Option String := none
  required : Option Bool := none
  deriving DecidableEq, Repr

/-- `McpPrompt`: a prompt descriptor tagged with its owning server id. -/
structure McpPrompt where
  name : String
  title : Option String := none
  description : Option String := none
  arguments : Option (List McpPromptArgument) := none
  serverId : String
  deriving DecidableEq, Repr

/-- The `capabilities` flags of `McpServerStatusSchema`. -/
structure McpCapabilityFlags where
  tools : Bool := false
  resources : Bool := false
  prompts : Bool := false
  logging : Bool := false
  deriving DecidableEq, Repr

/-- `McpServerStatus`. -/
structure McpServerStatus where
  id : String
  status : McpStatusKind
  lastConnected : Option String := none
  error : Option String := none
  capabilities : Option McpCapabilityFlags := none
  deriving DecidableEq, Repr, Inhabited

/-- `McpToolDefinition`: the raw shape a server returns from `tools/list`. -/
structure McpToolDefinition where
  name : String
  title : Option String := none
  description : Option String := none
  inputSchema : Option JsonValue := none
  outputSchema : Option JsonValue := none
  annotations : Option McpToolAnnotations := none
  deriving DecidableEq, Repr

/-- `McpResourceDefinition`: raw shape returned from `resources/list`. -/
structure McpResourceDefinition where
  uri : String
  name : String
  title : Option String := none
  description : Option String := none
  mimeType : Option String := none
  deriving DecidableEq, Repr

/-- `McpPromptDefinition`: raw shape returned from `prompts/list`. -/
structure McpPromptDefinition where
  name : String
  title : Option String := none
  description : Option String := none
  arguments : Option (List McpPromptArgument) := none
  deriving DecidableEq, Repr

/-- `McpListToolsResult`.  The `tools` field is `Option`al because the
service guards with a JS truthiness check `if (toolsResult.tools)`. -/
structure McpListToolsResult where
  tools : Option (List McpToolDefinition)
  deriving DecidableEq, Repr

/-- `McpListResourcesResult`. -/
structure McpListResourcesResult where
  resources : Option (List McpResourceDefinition)
  deriving DecidableEq, Repr

/-- `McpListPromptsResult`. -/
structure McpListPromptsResult where
  prompts : Option (List McpPromptDefinition)
  deriving DecidableEq, Repr

/-- The transport value constructed at lines 88–104 of the service:
either a `StdioClientTransport` (with command, args, env) or an
`SSEClientTransport` (with url). -/
inductive McpTransportSpec where
  | stdio (command : String) (args : List String)
      (env : Option (List (String × String)))
  | sse (url : String)
  deriving DecidableEq, Repr, Inhabited

/-- A transport object: its construction parameters plus a fresh handle
identifying this particular allocation (used to track close calls). -/
structure McpTransport where
  handle : Nat
  spec : McpTransportSpec
  deriving DecidableEq, Repr, Inhabited

/-- `McpClientConnection`: the per-provider record stored in the
service's `connections` map.  The opaque `Client` object is identified
by a fresh handle. -/
structure McpClientConnection where
  client : Nat
  transport : McpTransport
  config : McpServerConfig
  status : McpServerStatus
  tools : List McpTool
  resources : List McpResource
  prompts : List McpPrompt
  deriving DecidableEq, Repr, Inhabited

/-- Instrumentation: every resource acquisition/release and every
outbound `client.request` is recorded so that leak and I/O claims can
be stated. -/
inductive McpEvent where
  | clientCreated (handle : Nat)
  | clientClosed (handle : Nat)
  | transportCreated (handle : Nat) (spec : McpTransportSpec)
  | transportClosed (handle : Nat)
  | clientRequest (client : Nat) (method : String)
  deriving DecidableEq, Repr

/-- The state of a `McpService` instance: the `connections` map
(association list with JS `Map` semantics: insertion order, in-place
update), a fresh-handle supply, and the event log (most recent first). -/
structure McpState where
  connections : List (String × McpClientConnection)
  nextHandle : Nat
  log : List McpEvent
  deriving DecidableEq, Repr

/-- The freshly constructed service: `new Map()`, nothing allocated. -/
def McpState.initial : McpState :=
  { connections := [], nextHandle := 0, log := [] }

/-- JS `Map.prototype.get`. -/
def mapGet {α : Type} (m : List (String × α)) (k : String) : Option α :=
  match m.find? (fun p => p.fst == k) with
  | some p => some p.snd
  | none => none

/-- JS `Map.prototype.set`: updates the existing entry in place when the
key is present (keeping insertion order), otherwise appends. -/
def mapSet {α : Type} (m : List (String × α)) (k : String) (v : α) :
    List (String × α) :=
  if m.any (fun p => p.fst == k) then
    m.map (fun p => if p.fst == k then (k, v) else p)
  else
    m ++ [(k, v)]

/-- JS `Map.prototype.delete`. -/
def mapDelete {α : Type} (m : List (String × α)) (k : String) :
    List (String × α) :=
  m.filter (fun p => !(p.fst == k))

/-- `getErrorMessage` (types/index.ts): our thrown errors are `Error`
objects modelled by their message strings, so the message is returned
and the fallback is unused. -/
def getErrorMessage (e : String) (_fallback : String) : String := e

/-- `status === 'connected'` checks. -/
def statusIsConnected (s : McpStatusKind) : Bool :=
  match s with
  | McpStatusKind.connected => true
  | _ => false

/-- The external outcomes consumed by one `connectToServer` call:
how long the `client.connect(transport)` promise takes and what it
settles to, the results of the three capability list requests, and the
value of `new Date().toISOString()`, together with the platform URL
constructor consulted for SSE configs. -/
structure McpConnectEnv where
  handshakeDelay : Nat
  handshakeResult : Except String Unit
  listTools : Except String McpListToolsResult
  listResources : Except String McpListResourcesResult
  listPrompts : Except String McpListPromptsResult
  now : String
  urlParse : String → Except String Unit

/-- Lines 106–115: `Promise.race([client.connect(transport),
timeoutPromise])` — the timer rejects with `'Connection timeout'` after
`config.timeout` ms, so the handshake outcome wins only if it settles
strictly earlier. -/
def raceOutcome (timeout : Nat) (env : McpConnectEnv) : Except String Unit :=
  if env.handshakeDelay < timeout then env.handshakeResult
  else Except.error "Connection timeout"

/-- Lines 86–104: transport selection from the config's declared type.
`Except.error` models the `throw new Error(...)` branches, which land in
the surrounding catch block.  The JS guards `if (!config.command)` and
`if (!config.url)` are truthiness checks, so they reject the empty
string as well as a missing field.  `new URL(config.url)` is the
platform URL constructor — an external primitive, not code of this
repository — supplied abstractly as `urlParse`; when it throws, its
message (a TypeError such as "Invalid URL") propagates to the catch
block. -/
def selectTransport (urlParse : String → Except String Unit)
    (config : McpServerConfig) : Except String McpTransportSpec :=
  match config.type with
  | McpTransportType.stdio =>
    match config.command with
    | none => Except.error "Command is required for stdio transport"
    | some cmd =>
      if cmd = "" then
        Except.error "Command is required for stdio transport"
      else
        Except.ok
          (McpTransportSpec.stdio cmd (config.args.getD []) config.env)
  | McpTransportType.sse =>
    match config.url with
    | none => Except.error "URL is required for SSE transport"
    | some u =>
      if u = "" then
        Except.error "URL is required for SSE transport"
      else
        match urlParse u with
        | Except.error e => Except.error e
        | Except.ok _ => Except.ok (McpTransportSpec.sse u)
  | McpTransportType.websocket =>
    Except.error "Unsupported transport type: websocket"

/-- The per-tool mapping of the `tools/list` result (lines 133–149). -/
def toolFromDefinition (serverId : String) (t : McpToolDefinition) : McpTool :=
  { name := t.name
    title := t.title
    description := t.description
    inputSchema := t.inputSchema
    outputSchema := t.outputSchema
    annotations := t.annotations
    serverId := serverId }

/-- Lines 122–153: the tools discovered by the `tools/list` call; a
failed call is caught and leaves the list empty, as does a missing
`tools` field. -/
def discoveredTools (serverId : String)
    (r : Except String McpListToolsResult) : List McpTool :=
  match r with
  | Except.error _ => []
  | Except.ok res =>
    match res.tools with
    | none => []
    | some ts => ts.map (toolFromDefinition serverId)

/-- The per-resource mapping of the `resources/list` result. -/
def resourceFromDefinition (serverId : String) (r : McpResourceDefinition) :
    McpResource :=
  { uri := r.uri
    name := r.name
    title := r.title
    description := r.description
    mimeType := r.mimeType
    serverId := serverId }

/-- Lines 155–181: resources discovered by the `resources/list` call. -/
def discoveredResources (serverId : String)
    (r : Except String McpListResourcesResult) : List McpResource :=
  match r with
  | Except.error _ => []
  | Except.ok res =>
    match res.resources with
    | none => []
    | some rs => rs.map (resourceFromDefinition serverId)

/-- The per-prompt mapping of the `prompts/list` result. -/
def promptFromDefinition (serverId : String) (p : McpPromptDefinition) :
    McpPrompt :=
  { name := p.name
    title := p.title
    description := p.description
    arguments := p.arguments
    serverId := serverId }

/-- Lines 183–206: prompts discovered by the `prompts/list` call. -/
def discoveredPrompts (serverId : String)
    (r : Except String McpListPromptsResult) : List McpPrompt :=
  match r with
  | Except.error _ => []
  | Except.ok res =>
    match res.prompts with
    | none => []
    | some ps => ps.map (promptFromDefinition serverId)

/-- The error status built in the catch block (lines 238–243). -/
def errorStatusFor (id : String) (e : String) : McpServerStatus :=
  { id := id
    status := McpStatusKind.error
    lastConnected := none
    error := some (getErrorMessage e "Unknown connection error")
    capabilities := none }

/-- `disconnectFromServer` (lines 256–274): look up the connection; if
absent, return unchanged; otherwise close client then transport and
delete the map entry. -/
def disconnectFromServer (st : McpState) (serverId : String) : McpState :=
  match mapGet st.connections serverId with
  | none => st
  | some conn =>
    { st with
      connections := mapDelete st.connections serverId
      log := McpEvent.transportClosed conn.transport.handle ::
             McpEvent.clientClosed conn.client :: st.log }

/-- `connectToServer` (lines 62–251): disconnect any existing
connection, create a client, select and create a transport, race the
handshake against the timeout, run the three capability list calls
(each with its own swallowed failure), store the new connection under
`connected` status, and return that status.  Every thrown error lands
in the catch block, which returns an `error` status and performs no
cleanup and no map update. -/
def connectToServer (st : McpState) (config : McpServerConfig)
    (env : McpConnectEnv) : McpServerStatus × McpState :=
  let st1 := disconnectFromServer st config.id
  let clientHandle := st1.nextHandle
  let st2 : McpState :=
    { st1 with
      nextHandle := st1.nextHandle + 1
      log := McpEvent.clientCreated clientHandle :: st1.log }
  match selectTransport env.urlParse config with
  | Except.error e => (errorStatusFor config.id e, st2)
  | Except.ok spec =>
    let tHandle := st2.nextHandle
    let transport : McpTransport := { handle := tHandle, spec := spec }
    let st3 : McpState :=
      { st2 with
        nextHandle := st2.nextHandle + 1
        log := McpEvent.transportCreated tHandle spec :: st2.log }
    match raceOutcome config.timeout env with
    | Except.error e => (errorStatusFor config.id e, st3)
    | Except.ok _ =>
      let st4 : McpState :=
        { st3 with
          log := McpEvent.clientRequest clientHandle "prompts/list" ::
                 McpEvent.clientRequest clientHandle "resources/list" ::
                 McpEvent.clientRequest clientHandle "tools/list" :: st3.log }
      let tools := discoveredTools config.id env.listTools
      let resources := discoveredResources config.id env.listResources
      let prompts := discoveredPrompts config.id env.listPrompts
      let status : McpServerStatus :=
        { id := config.id
          status := McpStatusKind.connected
          lastConnected := some env.now
          error := none
          capabilities := some
            { tools := !tools.isEmpty
              resources := !resources.isEmpty
              prompts := !prompts.isEmpty
              logging := true } }
      let connection : McpClientConnection :=
        { client := clientHandle
          transport := transport
          config := config
          status := status
          tools := tools
          resources := resources
          prompts := prompts }
      (status, { st4 with
                 connections := mapSet st4.connections config.id connection })

/-- `getServerStatus` (lines 279–282). -/
def getServerStatus (st : McpState) (serverId : String) :
    Option McpServerStatus :=
  (mapGet st.connections serverId).map (fun c => c.status)

/-- `getAllServerStatuses` (lines 287–293). -/
def getAllServerStatuses (st : McpState) : List (String × McpServerStatus) :=
  st.connections.map (fun p => (p.fst, p.snd.status))

/-- `getAllTools` (lines 298–306). -/
def getAllTools (st : McpState) : List McpTool :=
  (st.connections.filter
    (fun p => statusIsConnected p.snd.status.status)).flatMap
    (fun p => p.snd.tools)

/-- `getServerTools` (lines 311–316). -/
def getServerTools (st : McpState) (serverId : String) : List McpTool :=
  match mapGet st.connections serverId with
  | some conn =>
    if statusIsConnected conn.status.status then conn.tools else []
  | none => []

/-- `getAllResources` (lines 321–329). -/
def getAllResources (st : McpState) : List McpResource :=
  (st.connections.filter
    (fun p => statusIsConnected p.snd.status.status)).flatMap
    (fun p => p.snd.resources)

/-- `getServerResources` (lines 334–339). -/
def getServerResources (st : McpState) (serverId : String) :
    List McpResource :=
  match mapGet st.connections serverId with
  | some conn =>
    if statusIsConnected conn.status.status then conn.resources else []
  | none => []

/-- `getAllPrompts` (lines 344–352). -/
def getAllPrompts (st : McpState) : List McpPrompt :=
  (st.connections.filter
    (fun p => statusIsConnected p.snd.status.status)).flatMap
    (fun p => p.snd.prompts)

/-- `getServerPrompts` (lines 357–362). -/
def getServerPrompts (st : McpState) (serverId : String) : List McpPrompt :=
  match mapGet st.connections serverId with
  | some conn =>
    if statusIsConnected conn.status.status then conn.prompts else []
  | none => []

/-- `McpToolCallRequest`. -/
structure McpToolCallRequest where
  serverId : String
  toolName : String
  arguments : Option JsonValue := none
  deriving DecidableEq, Repr

/-- One entry of a tool-call response's `content` array. -/
structure McpContentItem where
  type : String
  text : Option String := none
  data : Option JsonValue := none
  deriving DecidableEq, Repr

/-- `McpToolCallResponse` (the normalized shape returned by the
service). -/
structure McpToolCallResponse where
  content : List McpContentItem
  isError : Bool
  deriving DecidableEq, Repr

/-- `McpToolCallResult`: the raw result of the `tools/call` request;
both fields are normalized with `||` fallbacks by the service. -/
structure McpToolCallResult where
  content : Option (List McpContentItem)
  isError : Option Bool
  deriving DecidableEq, Repr

/-- External outcome of one `tools/call` request: how long it takes and
what it settles to.  The service applies no timeout here, so `delay` is
recorded but (as the theorems show) never consulted. -/
structure McpToolCallEnv where
  delay : Nat
  result : Except String McpToolCallResult
  deriving Repr

/-- `callTool` (lines 367–399). -/
def callTool (st : McpState) (req : McpToolCallRequest)
    (env : McpToolCallEnv) :
    Except String McpToolCallResponse × McpState :=
  match mapGet st.connections req.serverId with
  | none =>
    (Except.error ("MCP server " ++ req.serverId ++ " not connected"), st)
  | some conn =>
    if statusIsConnected conn.status.status then
      let st1 : McpState :=
        { st with
          log := McpEvent.clientRequest conn.client "tools/call" :: st.log }
      match env.result with
      | Except.ok r =>
        (Except.ok { content := r.content.getD []
                     isError := r.isError.getD false }, st1)
      | Except.error e =>
        (Except.error ("Failed to call tool " ++ req.toolName ++ ": " ++
          getErrorMessage e "Unknown error"), st1)
    else
      (Except.error ("MCP server " ++ req.serverId ++ " is not connected"),
       st)

/-- `McpResourceReadRequest`. -/
structure McpResourceReadRequest where
  serverId : String
  uri : String
  deriving DecidableEq, Repr

/-- One entry of a resource read's `contents` array. -/
structure McpResourceEntry where
  uri : String
  mimeType : Option String := none
  text : Option String := none
  blob : Option String := none
  deriving DecidableEq, Repr

/-- `McpResourceContent` (the normalized shape returned by the
service). -/
structure McpResourceContent where
  contents : List McpResourceEntry
  deriving DecidableEq, Repr

/-- Raw result of the `resources/read` request; the `contents` field is
normalized with a `|| []` fallback by the service. -/
structure McpRawResourceContent where
  contents : Option (List McpResourceEntry)
  deriving DecidableEq, Repr

/-- External outcome of one `resources/read` request. -/
structure McpReadEnv where
  delay : Nat
  result : Except String McpRawResourceContent
  deriving Repr

/-- `readResource` (lines 404–436). -/
def readResource (st : McpState) (req : McpResourceReadRequest)
    (env : McpReadEnv) : Except String McpResourceContent × McpState :=
  match mapGet st.connections req.serverId with
  | none =>
    (Except.error ("MCP server " ++ req.serverId ++ " not connected"), st)
  | some conn =>
    if statusIsConnected conn.status.status then
      let st1 : McpState :=
        { st with
          log := McpEvent.clientRequest conn.client "resources/read" ::
                 st.log }
      match env.result with
      | Except.ok r =>
        (Except.ok { contents := r.contents.getD [] }, st1)
      | Except.error e =>
        (Except.error ("Failed to read resource " ++ req.uri ++ ": " ++
          getErrorMessage e "Unknown error"), st1)
    else
      (Except.error ("MCP server " ++ req.serverId ++ " is not connected"),
       st)

/-- `refreshServerCapabilities` (lines 441–461): no-op unless the
connection exists and is `connected`; otherwise clear its capability
lists in place and re-run `connectToServer` with the stored config.
(`connectToServer` never rejects — it catches internally — so the
surrounding try/catch adds nothing.) -/
def refreshServerCapabilities (st : McpState) (serverId : String)
    (env : McpConnectEnv) : McpState :=
  match mapGet st.connections serverId with
  | none => st
  | some conn =>
    if statusIsConnected conn.status.status then
      let cleared : McpClientConnection :=
        { conn with tools := [], resources := [], prompts := [] }
      let st1 : McpState :=
        { st with connections := mapSet st.connections serverId cleared }
      (connectToServer st1 conn.config env).snd
    else st

/-- `disconnectAll` (lines 466–472): disconnect every currently-present
server id (a snapshot of the keys), each attempt independent. -/
def disconnectAll (st : McpState) : McpState :=
  (st.connections.map (fun p => p.fst)).foldl
    (fun s serverId => disconnectFromServer s serverId) st

/-- The transport handles allocated according to the event log. -/
def transportCreations (log : List McpEvent) : List Nat :=
  log.filterMap (fun e =>
    match e with
    | McpEvent.transportCreated h _ => some h
    | _ => none)

/-- The transport handles closed according to the event log. -/
def transportClosures (log : List McpEvent) : List Nat :=
  log.filterMap (fun e =>
    match e with
    | McpEvent.transportClosed h => some h
    | _ => none)

/-- One observable step of the service: any of its public async
operations, with arbitrary external outcomes. -/
inductive McpStep : McpState → McpState → Prop where
  | connect (st : McpState) (config : McpServerConfig)
      (env : McpConnectEnv) :
      McpStep st (connectToServer st config env).snd
  | disconnect (st : McpState) (serverId : String) :
      McpStep st (disconnectFromServer st serverId)
  | callT (st : McpState) (req : McpToolCallRequest)
      (env : McpToolCallEnv) :
      McpStep st (callTool st req env).snd
  | readR (st : McpState) (req : McpResourceReadRequest)
      (env : McpReadEnv) :
      McpStep st (readResource st req env).snd
  | refresh (st : McpState) (serverId : String) (env : McpConnectEnv) :
      McpStep st (refreshServerCapabilities st serverId env)
  | disconnectEverything (st : McpState) :
      McpStep st (disconnectAll st)

/-- States reachable from the freshly constructed service. -/
inductive McpReachable : McpState → Prop where
  | initial : McpReachable McpState.initial
  | step {st st' : McpState} :
      McpReachable st → McpStep st st' → McpReachable st'

/-- The per-entry invariant of the connections map: every stored
connection is in `connected` status, its stored config's id is its key,
and every capability descriptor it holds is tagged with its key. -/
def ConnInv (p : String × McpClientConnection) : Prop :=
  statusIsConnected p.snd.status.status = true ∧
  p.snd.config.id = p.fst ∧
  (∀ t ∈ p.snd.tools, t.serverId = p.fst) ∧
  (∀ r ∈ p.snd.resources, r.serverId = p.fst) ∧
  (∀ q ∈ p.snd.prompts, q.serverId = p.fst)

/-- The service-state invariant. -/
def StateInv (st : McpState) : Prop :=
  ∀ p ∈ st.connections, ConnInv p

/-! ## Concrete fixtures for counterexamples and witnesses -/

/-- A stdio provider config with its required command. -/
def cfgA : McpServerConfig :=
  { id := "a", name := "Provider A", type := McpTransportType.stdio,
    command := some "server-a", timeout := 1000 }

/-- An SSE provider config with its required url. -/
def cfgB : McpServerConfig :=
  { id := "b", name := "Provider B", type := McpTransportType.sse,
    url := some "http://localhost:9000/sse", timeout := 1000 }

/-- A websocket provider config, with a url supplied. -/
def cfgW : McpServerConfig :=
  { id := "w", name := "Provider W", type := McpTransportType.websocket,
    url := some "ws://localhost:9001", timeout := 1000 }

/-- A tool named "search", as listed by a provider. -/
def searchDef : McpToolDefinition := { name := "search" }

/-- A URL constructor that accepts every string (the fixture configs
only carry well-formed urls). -/
def urlOk : String → Except String Unit := fun _ => Except.ok ()

/-- A connect run for provider A: fast handshake, one tool named
"search", no resources, and a failing `prompts/list` call. -/
def envConnectA : McpConnectEnv :=
  { handshakeDelay := 10
    handshakeResult := Except.ok ()
    listTools := Except.ok { tools := some [searchDef] }
    listResources := Except.ok { resources := some [] }
    listPrompts := Except.error "Method not found"
    now := "2026-01-01T00:00:00.000Z"
    urlParse := urlOk }

/-- A fully successful connect run for provider B, also exposing a tool
named "search". -/
def envConnectB : McpConnectEnv :=
  { handshakeDelay := 20
    handshakeResult := Except.ok ()
    listTools := Except.ok { tools := some [searchDef] }
    listResources := Except.ok { resources := some [] }
    listPrompts := Except.ok { prompts := some [] }
    now := "2026-01-01T00:00:05.000Z"
    urlParse := urlOk }

/-- A connect run whose handshake takes 5000 ms: against a 1000 ms
config timeout the race rejects with `Connection timeout`. -/
def envTimeout : McpConnectEnv :=
  { handshakeDelay := 5000
    handshakeResult := Except.ok ()
    listTools := Except.error "unreachable"
    listResources := Except.error "unreachable"
    listPrompts := Except.error "unreachable"
    now := "2026-01-01T00:00:10.000Z"
    urlParse := urlOk }

/-- The state after provider A connected. -/
def stA : McpState := (connectToServer McpState.initial cfgA envConnectA).snd

/-- The state after providers A and B both connected. -/
def stAB : McpState := (connectToServer stA cfgB envConnectB).snd

/-- The state after one failed (timed-out) connect attempt for A. -/
def stFail1 : McpState :=
  (connectToServer McpState.initial cfgA envTimeout).snd

/-- The state after two failed connect attempts for A in a row. -/
def stFail2 : McpState := (connectToServer stFail1 cfgA envTimeout).snd

/-- Provider A's stored connection in `stA`. -/
def connA : McpClientConnection := (mapGet stA.connections "a").getD default

/-- Provider A's stored connection in `stAB`. -/
def connAB : McpClientConnection :=
  (mapGet stAB.connections "a").getD default

/-- Provider A's status as reported in `stA`. -/
def statusA : McpServerStatus := (getServerStatus stA "a").getD default

/-- The "search" descriptor as aggregated from provider A. -/
def searchA : McpTool := { name := "search", serverId := "a" }

/-- The "search" descriptor as aggregated from provider B. -/
def searchB : McpTool := { name := "search", serverId := "b" }

/-- A hand-built connection stuck in `error` status.  No reachable
service state stores such an entry, but the router code guards against
it, and the guard is exercised on this state. -/
def connE : McpClientConnection :=
  { client := 0
    transport := { handle := 1, spec := McpTransportSpec.sse "http://x" }
    config := { id := "e", name := "Provider E",
                type := McpTransportType.sse, url := some "http://x" }
    status := { id := "e", status := McpStatusKind.error,
                error := some "handshake failed" }
    tools := []
    resources := []
    prompts := [] }

/-- A state holding the `error`-status entry `connE`. -/
def stErr : McpState :=
  { connections := [("e", connE)], nextHandle := 2, log := [] }

/-- A tool-call outcome that fails at the transport level. -/
def cenvBoom : McpToolCallEnv :=
  { delay := 0, result := Except.error "boom" }

/-- A resource-read outcome that fails at the transport level. -/
def renvBoom : McpReadEnv :=
  { delay := 0, result := Except.error "boom" }

/-- A fast, successful, empty tool-call outcome. -/
def cenvOkEmpty : McpToolCallEnv :=
  { delay := 0, result := Except.ok { content := some [], isError := none } }

/-- A successful tool-call outcome that takes 5000 ms to arrive. -/
def cenvSlowOk : McpToolCallEnv :=
  { delay := 5000
    result := Except.ok
      { content := some [{ type := "text", text := some "ok" }]
        isError := some false } }

/-- A tool-call request addressed to provider "a". -/
def reqSearchA : McpToolCallRequest :=
  { serverId := "a", toolName := "search" }

/-- A resource-read request addressed to provider "a". -/
def rreqA : McpResourceReadRequest :=
  { serverId := "a", uri := "file:///x" }

/-! ## Basic lemmas about the map operations -/

theorem statusIsConnected_iff {s : McpStatusKind} :
    statusIsConnected s = true ↔ s = McpStatusKind.connected := by
  cases s <;> simp [statusIsConnected]

theorem mem_of_mapGet_eq_some {α : Type} {m : List (String × α)} {k : String}
    {v : α} (h : mapGet m k = some v) : (k, v) ∈ m := by
  unfold mapGet at h
  cases hf : m.find? (fun p => p.fst == k) with
  | none => rw [hf] at h; exact absurd h (by simp)
  | some p =>
    rw [hf] at h
    have hp := List.find?_some hf
    have hm : p ∈ m := List.mem_of_find?_eq_some hf
    have hk : p.fst = k := by simpa using hp
    have hv : p.snd = v := by simpa using h
    have : (k, v) = p := by rw [← hk, ← hv]
    rwa [this]

theorem mapGet_mapDelete_self {α : Type} (m : List (String × α))
    (k : String) : mapGet (mapDelete m k) k = none := by
  unfold mapGet
  cases hf : (mapDelete m k).find? (fun p => p.fst == k) with
  | none => rfl
  | some p =>
    have hp := List.find?_some hf
    have hm : p ∈ mapDelete m k := List.mem_of_find?_eq_some hf
    unfold mapDelete at hm
    have h2 := (List.mem_filter.mp hm).2
    simp only [Bool.not_eq_true'] at h2
    simp [h2] at hp

theorem mapDelete_eq_self_of_mapGet_none {α : Type} {m : List (String × α)}
    {k : String} (h : mapGet m k = none) : mapDelete m k = m := by
  unfold mapGet at h
  cases hf : m.find? (fun p => p.fst == k) with
  | some p => rw [hf] at h; exact absurd h (by simp)
  | none =>
    have hall := List.find?_eq_none.mp hf
    unfold mapDelete
    apply List.filter_eq_self.mpr
    intro p hp
    have := hall p hp
    simp only [Bool.not_eq_true] at this ⊢
    rw [this]
    rfl

theorem find?_append_of_none {α : Type} {p : α → Bool} {l₁ l₂ : List α}
    (h : l₁.find? p = none) : (l₁ ++ l₂).find? p = l₂.find? p := by
  induction l₁ with
  | nil => rfl
  | cons a t ih =>
    cases hpa : p a with
    | true =>
      rw [List.find?_cons_of_pos _ hpa] at h
      exact absurd h (by simp)
    | false =>
      rw [List.find?_cons_of_neg _ (by simp [hpa])] at h
      rw [List.cons_append, List.find?_cons_of_neg _ (by simp [hpa])]
      exact ih h

theorem find?_mapSet_update {α : Type} {m : List (String × α)} {k : String}
    (v : α) (h : m.any (fun p => p.fst == k) = true) :
    (m.map (fun p => if p.fst == k then (k, v) else p)).find?
      (fun p => p.fst == k) = some (k, v) := by
  induction m with
  | nil => simp at h
  | cons q rest ih =>
    cases hq : (q.fst == k) with
    | true =>
      rw [List.map_cons, if_pos hq]
      exact List.find?_cons_of_pos _ (by simp)
    | false =>
      have h' : rest.any (fun p => p.fst == k) = true := by
        rw [List.any_cons, hq] at h
        simpa using h
      rw [List.map_cons, if_neg (by simp [hq])]
      rw [List.find?_cons_of_neg _ (by simp [hq])]
      exact ih h'

theorem mapGet_mapSet_self {α : Type} (m : List (String × α)) (k : String)
    (v : α) : mapGet (mapSet m k v) k = some v := by
  unfold mapSet
  by_cases h : m.any (fun p => p.fst == k) = true
  · rw [if_pos h]
    unfold mapGet
    rw [find?_mapSet_update v h]
  · rw [if_neg h]
    unfold mapGet
    have hnone : m.find? (fun p => p.fst == k) = none := by
      apply List.find?_eq_none.mpr
      intro x hx
      intro hc
      exact h (List.any_eq_true.mpr ⟨x, hx, hc⟩)
    rw [find?_append_of_none hnone]
    rw [List.find?_cons_of_pos _ (by simp)]

theorem mem_mapSet {α : Type} {m : List (String × α)} {k : String} {v : α}
    {p : String × α} (h : p ∈ mapSet m k v) : p = (k, v) ∨ p ∈ m := by
  unfold mapSet at h
  by_cases ha : m.any (fun q => q.fst == k) = true
  · rw [if_pos ha] at h
    obtain ⟨q, hq, heq⟩ := List.mem_map.mp h
    by_cases hk : (q.fst == k) = true
    · rw [if_pos hk] at heq
      exact Or.inl heq.symm
    · rw [if_neg hk] at heq
      exact Or.inr (heq ▸ hq)
  · rw [if_neg ha] at h
    rcases List.mem_append.mp h with h | h
    · exact Or.inr h
    · simp at h
      exact Or.inl h

theorem mem_mapDelete {α : Type} {m : List (String × α)} {k : String}
    {p : String × α} (h : p ∈ mapDelete m k) : p ∈ m :=
  (List.mem_filter.mp h).1

/-! ## Lemmas about the service operations -/

theorem disconnectFromServer_connections (st : McpState) (serverId : String) :
    (disconnectFromServer st serverId).connections =
      mapDelete st.connections serverId := by
  unfold disconnectFromServer
  cases h : mapGet st.connections serverId with
  | none => exact (mapDelete_eq_self_of_mapGet_none h).symm
  | some conn => rfl

/-- On every failure exit of `connectToServer` (invalid transport
parameter, unsupported kind, handshake failure, timeout) the result
state's map is the input map with the provider's entry removed — the
error status is never stored. -/
theorem connectToServer_connections_of_error (st : McpState)
    (config : McpServerConfig) (env : McpConnectEnv)
    (h : (connectToServer st config env).fst.status = McpStatusKind.error) :
    (connectToServer st config env).snd.connections =
      mapDelete st.connections config.id := by
  unfold connectToServer
  cases hsel : selectTransport env.urlParse config with
  | error e =>
    simp only [hsel]
    exact disconnectFromServer_connections st config.id
  | ok spec =>
    cases hrace : raceOutcome config.timeout env with
    | error e =>
      simp only [hsel, hrace]
      exact disconnectFromServer_connections st config.id
    | ok u =>
      exfalso
      unfold connectToServer at h
      simp only [hsel, hrace] at h
      exact absurd h (by simp)

/-- On every failure exit, the returned status is `error` with the
error message populated and no capability flags. -/
theorem connectToServer_error_shape (st : McpState)
    (config : McpServerConfig) (env : McpConnectEnv)
    (h : (connectToServer st config env).fst.status = McpStatusKind.error) :
    (∃ m, (connectToServer st config env).fst.error = some m) ∧
      (connectToServer st config env).fst.capabilities = none := by
  unfold connectToServer at h ⊢
  cases hsel : selectTransport env.urlParse config with
  | error e => simp [hsel, errorStatusFor]
  | ok spec =>
    cases hrace : raceOutcome config.timeout env with
    | error e => simp [hsel, hrace, errorStatusFor]
    | ok u =>
      simp only [hsel, hrace] at h
      exact absurd h (by simp)

/-- On the success exit of `connectToServer` the new connection is
stored under the config's id, in `connected` status, with the three
capability lists populated from the three discovery outcomes. -/
theorem connectToServer_success (st : McpState) (config : McpServerConfig)
    (env : McpConnectEnv) (spec : McpTransportSpec)
    (hsel : selectTransport env.urlParse config = Except.ok spec)
    (hrace : raceOutcome config.timeout env = Except.ok ()) :
    (connectToServer st config env).fst.status = McpStatusKind.connected ∧
    ∃ conn, mapGet (connectToServer st config env).snd.connections
        config.id = some conn ∧
      conn.status.status = McpStatusKind.connected ∧
      conn.config = config ∧
      conn.tools = discoveredTools config.id env.listTools ∧
      conn.resources = discoveredResources config.id env.listResources ∧
      conn.prompts = discoveredPrompts config.id env.listPrompts := by
  unfold connectToServer
  rw [hsel, hrace]
  exact ⟨rfl, _, mapGet_mapSet_self _ _ _, rfl, rfl, rfl, rfl, rfl⟩

theorem discoveredTools_serverId (serverId : String)
    (r : Except String McpListToolsResult) :
    ∀ t ∈ discoveredTools serverId r, t.serverId = serverId := by
  intro t ht
  unfold discoveredTools at ht
  cases r with
  | error e => simp at ht
  | ok res =>
    obtain ⟨ts⟩ := res
    cases ts with
    | none => simp at ht
    | some l =>
      obtain ⟨d, _, hd⟩ := List.mem_map.mp ht
      rw [← hd]
      rfl

theorem discoveredResources_serverId (serverId : String)
    (r : Except String McpListResourcesResult) :
    ∀ x ∈ discoveredResources serverId r, x.serverId = serverId := by
  intro x hx
  unfold discoveredResources at hx
  cases r with
  | error e => simp at hx
  | ok res =>
    obtain ⟨rs⟩ := res
    cases rs with
    | none => simp at hx
    | some l =>
      obtain ⟨d, _, hd⟩ := List.mem_map.mp hx
      rw [← hd]
      rfl

theorem discoveredPrompts_serverId (serverId : String)
    (r : Except String McpListPromptsResult) :
    ∀ x ∈ discoveredPrompts serverId r, x.serverId = serverId := by
  intro x hx
  unfold discoveredPrompts at hx
  cases r with
  | error e => simp at hx
  | ok res =>
    obtain ⟨ps⟩ := res
    cases ps with
    | none => simp at hx
    | some l =>
      obtain ⟨d, _, hd⟩ := List.mem_map.mp hx
      rw [← hd]
      rfl

/-- Neither branch of `callTool` touches the connections map. -/
theorem callTool_connections (st : McpState) (req : McpToolCallRequest)
    (env : McpToolCallEnv) :
    (callTool st req env).snd.connections = st.connections := by
  unfold callTool
  cases mapGet st.connections req.serverId with
  | none => rfl
  | some conn =>
    cases hc : statusIsConnected conn.status.status with
    | false => simp only [hc]; rfl
    | true =>
      simp only [hc]
      cases env.result <;> rfl

/-- Neither branch of `readResource` touches the connections map. -/
theorem readResource_connections (st : McpState)
    (req : McpResourceReadRequest) (env : McpReadEnv) :
    (readResource st req env).snd.connections = st.connections := by
  unfold readResource
  cases mapGet st.connections req.serverId with
  | none => rfl
  | some conn =>
    cases hc : statusIsConnected conn.status.status with
    | false => simp only [hc]; rfl
    | true =>
      simp only [hc]
      cases env.result <;> rfl

/-- A `callTool` against a connected provider sends exactly one
request, on that provider's own client handle. -/
theorem callTool_log_of_connected (st : McpState) (req : McpToolCallRequest)
    (env : McpToolCallEnv) (conn : McpClientConnection)
    (h : mapGet st.connections req.serverId = some conn)
    (hc : statusIsConnected conn.status.status = true) :
    (callTool st req env).snd.log =
      McpEvent.clientRequest conn.client "tools/call" :: st.log := by
  unfold callTool
  simp only [h, hc]
  cases env.result <;> rfl

/-- A failed `tools/call` surfaces an error to the caller. -/
theorem callTool_error_of_request_error (st : McpState)
    (req : McpToolCallRequest) (env : McpToolCallEnv)
    (conn : McpClientConnection) (e : String)
    (h : mapGet st.connections req.serverId = some conn)
    (hc : statusIsConnected conn.status.status = true)
    (he : env.result = Except.error e) :
    (callTool st req env).fst =
      Except.error ("Failed to call tool " ++ req.toolName ++ ": " ++
        getErrorMessage e "Unknown error") := by
  unfold callTool
  simp only [h, hc, he]
  rfl

/-- A failed `resources/read` surfaces an error to the caller. -/
theorem readResource_error_of_request_error (st : McpState)
    (req : McpResourceReadRequest) (env : McpReadEnv)
    (conn : McpClientConnection) (e : String)
    (h : mapGet st.connections req.serverId = some conn)
    (hc : statusIsConnected conn.status.status = true)
    (he : env.result = Except.error e) :
    (readResource st req env).fst =
      Except.error ("Failed to read resource " ++ req.uri ++ ": " ++
        getErrorMessage e "Unknown error") := by
  unfold readResource
  simp only [h, hc, he]
  rfl

/-! ## The connections-map invariant and its preservation -/

theorem stateInv_initial : StateInv McpState.initial := by
  intro p hp
  simp [McpState.initial] at hp

theorem stateInv_disconnect {st : McpState} (h : StateInv st)
    (serverId : String) : StateInv (disconnectFromServer st serverId) := by
  intro p hp
  rw [disconnectFromServer_connections] at hp
  exact h p (mem_mapDelete hp)

theorem stateInv_connect {st : McpState} (h : StateInv st)
    (config : McpServerConfig) (env : McpConnectEnv) :
    StateInv (connectToServer st config env).snd := by
  intro p hp
  unfold connectToServer at hp
  cases hsel : selectTransport env.urlParse config with
  | error e =>
    rw [hsel] at hp
    simp only at hp
    rw [disconnectFromServer_connections] at hp
    exact h p (mem_mapDelete hp)
  | ok spec =>
    rw [hsel] at hp
    cases hrace : raceOutcome config.timeout env with
    | error e =>
      rw [hrace] at hp
      simp only at hp
      rw [disconnectFromServer_connections] at hp
      exact h p (mem_mapDelete hp)
    | ok u =>
      rw [hrace] at hp
      simp only at hp
      rcases mem_mapSet hp with heq | hmem
      · subst heq
        refine ⟨rfl, rfl, ?_, ?_, ?_⟩
        · exact discoveredTools_serverId config.id env.listTools
        · exact discoveredResources_serverId config.id env.listResources
        · exact discoveredPrompts_serverId config.id env.listPrompts
      · rw [disconnectFromServer_connections] at hmem
        exact h p (mem_mapDelete hmem)

theorem stateInv_callTool {st : McpState} (h : StateInv st)
    (req : McpToolCallRequest) (env : McpToolCallEnv) :
    StateInv (callTool st req env).snd := by
  intro p hp
  rw [callTool_connections] at hp
  exact h p hp

theorem stateInv_readResource {st : McpState} (h : StateInv st)
    (req : McpResourceReadRequest) (env : McpReadEnv) :
    StateInv (readResource st req env).snd := by
  intro p hp
  rw [readResource_connections] at hp
  exact h p hp

theorem stateInv_refresh {st : McpState} (h : StateInv st)
    (serverId : String) (env : McpConnectEnv) :
    StateInv (refreshServerCapabilities st serverId env) := by
  unfold refreshServerCapabilities
  cases hget : mapGet st.connections serverId with
  | none => exact h
  | some conn =>
    cases hc : statusIsConnected conn.status.status with
    | false => simp only [hc]; exact h
    | true =>
      simp only [hc]
      have hconn := h _ (mem_of_mapGet_eq_some hget)
      apply stateInv_connect
      intro p hp
      rcases mem_mapSet hp with heq | hmem
      · subst heq
        exact ⟨hconn.1, hconn.2.1, by simp, by simp, by simp⟩
      · exact h p hmem

theorem stateInv_disconnectAll {st : McpState} (h : StateInv st) :
    StateInv (disconnectAll st) := by
  unfold disconnectAll
  generalize st.connections.map (fun p => p.fst) = keys
  induction keys generalizing st with
  | nil => exact h
  | cons k rest ih => exact ih (stateInv_disconnect h k)

theorem stateInv_step {st st' : McpState} (h : StateInv st)
    (hs : McpStep st st') : StateInv st' := by
  cases hs with
  | connect config env => exact stateInv_connect h config env
  | disconnect serverId => exact stateInv_disconnect h serverId
  | callT req env => exact stateInv_callTool h req env
  | readR req env => exact stateInv_readResource h req env
  | refresh serverId env => exact stateInv_refresh h serverId env
  | disconnectEverything => exact stateInv_disconnectAll h

theorem stateInv_of_reachable {st : McpState} (h : McpReachable st) :
    StateInv st := by
  induction h with
  | initial => exact stateInv_initial
  | step _ hs ih => exact stateInv_step ih hs

/-! ## Membership in the aggregated capability views -/

theorem mem_getAllTools {st : McpState} {t : McpTool} :
    t ∈ getAllTools st ↔
      ∃ p, p ∈ st.connections ∧
        statusIsConnected p.snd.status.status = true ∧ t ∈ p.snd.tools := by
  unfold getAllTools
  rw [List.mem_flatMap]
  constructor
  · rintro ⟨p, hp, ht⟩
    obtain ⟨hmem, hconn⟩ := List.mem_filter.mp hp
    exact ⟨p, hmem, hconn, ht⟩
  · rintro ⟨p, hmem, hconn, ht⟩
    exact ⟨p, List.mem_filter.mpr ⟨hmem, hconn⟩, ht⟩

theorem mem_getAllResources {st : McpState} {r : McpResource} :
    r ∈ getAllResources st ↔
      ∃ p, p ∈ st.connections ∧
        statusIsConnected p.snd.status.status = true ∧
        r ∈ p.snd.resources := by
  unfold getAllResources
  rw [List.mem_flatMap]
  constructor
  · rintro ⟨p, hp, hr⟩
    obtain ⟨hmem, hconn⟩ := List.mem_filter.mp hp
    exact ⟨p, hmem, hconn, hr⟩
  · rintro ⟨p, hmem, hconn, hr⟩
    exact ⟨p, List.mem_filter.mpr ⟨hmem, hconn⟩, hr⟩

theorem mem_getAllPrompts {st : McpState} {q : McpPrompt} :
    q ∈ getAllPrompts st ↔
      ∃ p, p ∈ st.connections ∧
        statusIsConnected p.snd.status.status = true ∧
        q ∈ p.snd.prompts := by
  unfold getAllPrompts
  rw [List.mem_flatMap]
  constructor
  · rintro ⟨p, hp, hq⟩
    obtain ⟨hmem, hconn⟩ := List.mem_filter.mp hp
    exact ⟨p, hmem, hconn, hq⟩
  · rintro ⟨p, hmem, hconn, hq⟩
    exact ⟨p, List.mem_filter.mpr ⟨hmem, hconn⟩, hq⟩

/-! ## Reachability of the concrete fixture states -/

theorem stA_reachable : McpReachable stA :=
  McpReachable.step McpReachable.initial
    (McpStep.connect McpState.initial cfgA envConnectA)

theorem stAB_reachable : McpReachable stAB :=
  McpReachable.step stA_reachable (McpStep.connect stA cfgB envConnectB)

/-! ## Claim C1 -/

/-- C1, counterexample: a connect attempt for provider "a" that times
out during the handshake returns an `error` status, but the
per-provider status query afterwards yields `none` — the `error` status
is not observable through `getServerStatus`, contrary to the claim. -/
theorem c1_counterexample :
    (connectToServer McpState.initial cfgA envTimeout).fst.status =
      McpStatusKind.error ∧
    getServerStatus (connectToServer McpState.initial cfgA envTimeout).snd
      "a" = none :=
  ⟨rfl, rfl⟩

/-- C1 (amended): a provider whose connect attempt fails during the
transport handshake (failure or timeout) gets an `error` status
*returned from the connect call itself*, with the last error message
populated and no capability flags; but no Connection is stored, so the
per-provider status query afterwards yields nothing for that provider
rather than the `error` status. -/
theorem c1_failed_connect_error_not_stored (st : McpState)
    (config : McpServerConfig) (env : McpConnectEnv)
    (h : (connectToServer st config env).fst.status = McpStatusKind.error) :
    (∃ m, (connectToServer st config env).fst.error = some m) ∧
    (connectToServer st config env).fst.capabilities = none ∧
    getServerStatus (connectToServer st config env).snd config.id = none := by
  obtain ⟨hmsg, hcap⟩ := connectToServer_error_shape st config env h
  refine ⟨hmsg, hcap, ?_⟩
  unfold getServerStatus
  rw [connectToServer_connections_of_error st config env h,
    mapGet_mapDelete_self]
  rfl

/-- C1 witness: the amended theorem applied to the concrete timed-out
connect attempt. -/
theorem c1_witness :
    (∃ m, (connectToServer McpState.initial cfgA envTimeout).fst.error =
      some m) ∧
    (connectToServer McpState.initial cfgA envTimeout).fst.capabilities =
      none ∧
    getServerStatus (connectToServer McpState.initial cfgA envTimeout).snd
      "a" = none :=
  c1_failed_connect_error_not_stored McpState.initial cfgA envTimeout rfl

/-! ## Claim C2 -/

/-- C2: the claim says a failed connect attempt closes the transport it
constructed.  The code's catch block does not: after two timed-out
connect attempts for provider "a", two transports (handles 1 and 3)
were created and none was ever closed — each failed attempt leaks its
transport. -/
theorem c2_transport_leaked_on_failed_connect :
    (connectToServer McpState.initial cfgA envTimeout).fst.status =
      McpStatusKind.error ∧
    (connectToServer stFail1 cfgA envTimeout).fst.status =
      McpStatusKind.error ∧
    transportCreations stFail2.log = [3, 1] ∧
    transportClosures stFail2.log = [] :=
  ⟨rfl, rfl, rfl, rfl⟩

/-! ## Claim C3 -/

/-- If the provider entry is absent or not `connected`, `callTool`
fails and leaves the whole state (log included) untouched. -/
theorem callTool_not_connected (st : McpState) (req : McpToolCallRequest)
    (env : McpToolCallEnv)
    (h : ∀ conn, mapGet st.connections req.serverId = some conn →
      statusIsConnected conn.status.status = false) :
    (∃ m, (callTool st req env).fst = Except.error m) ∧
    (callTool st req env).snd = st := by
  unfold callTool
  cases hget : mapGet st.connections req.serverId with
  | none => exact ⟨⟨_, rfl⟩, rfl⟩
  | some conn =>
    have hf := h conn hget
    simp only [hf, Bool.false_eq_true, if_false]
    exact ⟨⟨_, rfl⟩, trivial⟩

/-- If the provider entry is absent or not `connected`, `readResource`
fails and leaves the whole state (log included) untouched. -/
theorem readResource_not_connected (st : McpState)
    (req : McpResourceReadRequest) (env : McpReadEnv)
    (h : ∀ conn, mapGet st.connections req.serverId = some conn →
      statusIsConnected conn.status.status = false) :
    (∃ m, (readResource st req env).fst = Except.error m) ∧
    (readResource st req env).snd = st := by
  unfold readResource
  cases hget : mapGet st.connections req.serverId with
  | none => exact ⟨⟨_, rfl⟩, rfl⟩
  | some conn =>
    have hf := h conn hget
    simp only [hf, Bool.false_eq_true, if_false]
    exact ⟨⟨_, rfl⟩, trivial⟩

/-- C4: when the provider id has no Connection or a Connection not in
`connected` status, `callTool` fails with a not-connected error and
performs no transport I/O (the state, and in particular the request
log, is unchanged); the same connectivity precondition governs
`readResource`. -/
theorem c4_router_requires_connected (st : McpState)
    (req : McpToolCallRequest) (rreq : McpResourceReadRequest)
    (cenv : McpToolCallEnv) (renv : McpReadEnv)
    (hc : ∀ conn, mapGet st.connections req.serverId = some conn →
      statusIsConnected conn.status.status = false)
    (hr : ∀ conn, mapGet st.connections rreq.serverId = some conn →
      statusIsConnected conn.status.status = false) :
    (∃ m, (callTool st req cenv).fst = Except.error m) ∧
    (callTool st req cenv).snd = st ∧
    (∃ m, (readResource st rreq renv).fst = Except.error m) ∧
    (readResource st rreq renv).snd = st := by
  obtain ⟨hce, hcs⟩ := callTool_not_connected st req cenv hc
  obtain ⟨hre, hrs⟩ := readResource_not_connected st rreq renv hr
  exact ⟨hce, hcs, hre, hrs⟩

/-- C4 witness: on a state holding only an `error`-status entry "e",
a tool call addressed to the absent id "absent" and a resource read
addressed to "e" both fail without touching the state. -/
theorem c4_witness :
    (∃ m, (callTool stErr { serverId := "absent", toolName := "search" }
      cenvOkEmpty).fst = Except.error m) ∧
    (callTool stErr { serverId := "absent", toolName := "search" }
      cenvOkEmpty).snd = stErr ∧
    (∃ m, (readResource stErr { serverId := "e", uri := "file:///x" }
      renvBoom).fst = Except.error m) ∧
    (readResource stErr { serverId := "e", uri := "file:///x" }
      renvBoom).snd = stErr :=
  c4_router_requires_connected stErr
    { serverId := "absent", toolName := "search" }
    { serverId := "e", uri := "file:///x" } cenvOkEmpty renvBoom
    (fun conn h => nomatch h)
    (fun conn h => by
      have h' : connE = conn := by
        have hs : some connE = some conn := h
        exact Option.some.inj hs
      rw [← h']
      rfl)

/-! ## Claim C5 -/

/-- C5: if the transport was selected and the handshake race succeeded,
the provider ends `connected` no matter how the three discovery calls
fared; in particular when `prompts/list` failed, the stored connection
carries the tools and resources discovered by their own calls and an
empty prompts list. -/
theorem c5_prompt_discovery_failure_swallowed (st : McpState)
    (config : McpServerConfig) (env : McpConnectEnv)
    (spec : McpTransportSpec) (e : String)
    (hsel : selectTransport env.urlParse config = Except.ok spec)
    (hrace : raceOutcome config.timeout env = Except.ok ())
    (hprompts : env.listPrompts = Except.error e) :
    (connectToServer st config env).fst.status =
      McpStatusKind.connected ∧
    ∃ conn, mapGet (connectToServer st config env).snd.connections
        config.id = some conn ∧
      conn.status.status = McpStatusKind.connected ∧
      conn.tools = discoveredTools config.id env.listTools ∧
      conn.resources = discoveredResources config.id env.listResources ∧
      conn.prompts = [] := by
  obtain ⟨hst, conn, hget, hcs, hcfg, htools, hres, hpr⟩ :=
    connectToServer_success st config env spec hsel hrace
  refine ⟨hst, conn, hget, hcs, htools, hres, ?_⟩
  rw [hpr, hprompts]
  rfl

/-- C5 witness: the theorem applied to provider A's connect run, whose
`prompts/list` call fails while the handshake and the other two list
calls succeed. -/
theorem c5_witness :
    (connectToServer McpState.initial cfgA envConnectA).fst.status =
      McpStatusKind.connected ∧
    ∃ conn, mapGet (connectToServer McpState.initial cfgA
        envConnectA).snd.connections "a" = some conn ∧
      conn.status.status = McpStatusKind.connected ∧
      conn.tools = discoveredTools "a" envConnectA.listTools ∧
      conn.resources = discoveredResources "a" envConnectA.listResources ∧
      conn.prompts = [] :=
  c5_prompt_discovery_failure_swallowed McpState.initial cfgA envConnectA
    (McpTransportSpec.stdio "server-a" [] none) "Method not found"
    rfl rfl rfl

/-! ## Claim C6 -/

/-- C6, counterexample: provider "a" is `connected` in `stA`, yet a
refresh whose reconnect times out leaves *no* status at all — the
status query yields `none` afterwards, contrary to the claim that
refresh always ends in `connected` or `error` and never in the absence
of any status. -/
theorem c6_counterexample :
    (getServerStatus stA "a").map McpServerStatus.status =
      some McpStatusKind.connected ∧
    getServerStatus (refreshServerCapabilities stA "a" envTimeout) "a" =
      none :=
  ⟨rfl, rfl⟩

/-- Any `connectToServer` run ends with the provider either stored as
`connected` with freshly computed capability lists, or absent from the
map entirely. -/
theorem connectToServer_connected_or_absent (st1 : McpState)
    (config : McpServerConfig) (env : McpConnectEnv) (key : String)
    (hid : config.id = key) :
    (∃ conn', mapGet (connectToServer st1 config env).snd.connections
        key = some conn' ∧
      conn'.status.status = McpStatusKind.connected ∧
      conn'.tools = discoveredTools key env.listTools ∧
      conn'.resources = discoveredResources key env.listResources ∧
      conn'.prompts = discoveredPrompts key env.listPrompts) ∨
    getServerStatus (connectToServer st1 config env).snd key = none := by
  cases hsel : selectTransport env.urlParse config with
  | ok spec =>
    cases hrace : raceOutcome config.timeout env with
    | ok u =>
      cases u
      left
      obtain ⟨hst, conn', hget', hcs, hcfg, ht, hr, hp⟩ :=
        connectToServer_success st1 config env spec hsel hrace
      rw [hid] at hget' ht hr hp
      exact ⟨conn', hget', hcs, ht, hr, hp⟩
    | error e =>
      right
      have herr : (connectToServer st1 config env).fst.status =
          McpStatusKind.error := by
        unfold connectToServer
        rw [hsel, hrace]
        rfl
      unfold getServerStatus
      rw [connectToServer_connections_of_error st1 config env herr, hid,
        mapGet_mapDelete_self]
      rfl
  | error e =>
    right
    have herr : (connectToServer st1 config env).fst.status =
        McpStatusKind.error := by
      unfold connectToServer
      rw [hsel]
      rfl
    unfold getServerStatus
    rw [connectToServer_connections_of_error st1 config env herr, hid,
      mapGet_mapDelete_self]
    rfl

/-- C6 (amended): a refresh on a `connected` provider either ends with
the provider `connected` again with freshly replaced capability lists,
or — when the embedded reconnect fails — with the provider's entry
removed from the map, so the status query yields nothing; a stored
`connecting` (or stored `error`) state never results. -/
theorem c6_refresh_connected_or_removed (st : McpState)
    (serverId : String) (env : McpConnectEnv)
    (conn : McpClientConnection)
    (hget : mapGet st.connections serverId = some conn)
    (hconn : statusIsConnected conn.status.status = true)
    (hid : conn.config.id = serverId) :
    (∃ conn', mapGet (refreshServerCapabilities st serverId
        env).connections serverId = some conn' ∧
      conn'.status.status = McpStatusKind.connected ∧
      conn'.tools = discoveredTools serverId env.listTools ∧
      conn'.resources = discoveredResources serverId env.listResources ∧
      conn'.prompts = discoveredPrompts serverId env.listPrompts) ∨
    getServerStatus (refreshServerCapabilities st serverId env)
      serverId = none := by
  unfold refreshServerCapabilities
  simp only [hget]
  rw [if_pos hconn]
  exact connectToServer_connected_or_absent _ conn.config env serverId hid

/-- C6 witness: the amended theorem applied to the connected provider
"a" of `stA` with a successful reconnect run. -/
theorem c6_witness :
    (∃ conn', mapGet (refreshServerCapabilities stA "a"
        envConnectB).connections "a" = some conn' ∧
      conn'.status.status = McpStatusKind.connected ∧
      conn'.tools = discoveredTools "a" envConnectB.listTools ∧
      conn'.resources = discoveredResources "a" envConnectB.listResources ∧
      conn'.prompts = discoveredPrompts "a" envConnectB.listPrompts) ∨
    getServerStatus (refreshServerCapabilities stA "a" envConnectB) "a" =
      none :=
  c6_refresh_connected_or_removed stA "a" envConnectB connA rfl rfl rfl

/-! ## Claim C7 -/

/-- C7: in every reachable service state the aggregated tool, resource
and prompt views contain exactly the descriptors of the Connections in
`connected` status; every stored descriptor carries the id of the
provider whose map entry owns it; and a tool call addressed to a
connected provider id sends its single request on that provider's own
client handle — never another provider's. -/
theorem c7_aggregation_and_routing (st : McpState)
    (h : McpReachable st) :
    (∀ t : McpTool, t ∈ getAllTools st ↔
      ∃ p, p ∈ st.connections ∧
        statusIsConnected p.snd.status.status = true ∧ t ∈ p.snd.tools) ∧
    (∀ r : McpResource, r ∈ getAllResources st ↔
      ∃ p, p ∈ st.connections ∧
        statusIsConnected p.snd.status.status = true ∧
        r ∈ p.snd.resources) ∧
    (∀ q : McpPrompt, q ∈ getAllPrompts st ↔
      ∃ p, p ∈ st.connections ∧
        statusIsConnected p.snd.status.status = true ∧
        q ∈ p.snd.prompts) ∧
    (∀ p ∈ st.connections,
      (∀ t ∈ p.snd.tools, t.serverId = p.fst) ∧
      (∀ r ∈ p.snd.resources, r.serverId = p.fst) ∧
      (∀ q ∈ p.snd.prompts, q.serverId = p.fst)) ∧
    (∀ (req : McpToolCallRequest) (env : McpToolCallEnv)
        (conn : McpClientConnection),
      mapGet st.connections req.serverId = some conn →
      statusIsConnected conn.status.status = true →
      (callTool st req env).snd.log =
        McpEvent.clientRequest conn.client "tools/call" :: st.log) := by
  have hinv := stateInv_of_reachable h
  refine ⟨fun t => mem_getAllTools, fun r => mem_getAllResources,
    fun q => mem_getAllPrompts, ?_, ?_⟩
  · intro p hp
    obtain ⟨_, _, ht, hr, hq⟩ := hinv p hp
    exact ⟨ht, hr, hq⟩
  · intro req env conn hget hconn
    exact callTool_log_of_connected st req env conn hget hconn

/-- C7 witness: in the reachable two-provider state `stAB`, the theorem
gives the membership characterization for the "search" descriptor of
provider "a" and the routing fact that a call addressed to "a" goes out
on "a"'s client handle; the aggregate indeed holds the two distinct
"search" descriptors, distinguished by provider id. -/
theorem c7_witness :
    getAllTools stAB = [searchA, searchB] ∧
    (searchA ∈ getAllTools stAB ↔
      ∃ p, p ∈ stAB.connections ∧
        statusIsConnected p.snd.status.status = true ∧
        searchA ∈ p.snd.tools) ∧
    (callTool stAB { serverId := "a", toolName := "search" }
        cenvOkEmpty).snd.log =
      McpEvent.clientRequest connAB.client "tools/call" :: stAB.log := by
  have h := c7_aggregation_and_routing stAB stAB_reachable
  exact ⟨by decide, h.1 searchA,
    h.2.2.2.2 { serverId := "a", toolName := "search" } cenvOkEmpty
      connAB rfl rfl⟩

/-! ## Claim C8 -/

/-- C8, counterexample: provider "a" is configured with a 1000 ms
timeout, yet a tool call whose transport request takes 5000 ms is not
failed with a timeout error — the service applies no timeout to
tool-call requests, and the slow request's own successful result is
returned while the provider stays `connected`. -/
theorem c8_counterexample :
    cfgA.timeout < cenvSlowOk.delay ∧
    (callTool stA reqSearchA cenvSlowOk).fst =
      Except.ok { content := [{ type := "text", text := some "ok" }],
                  isError := false } ∧
    (getServerStatus (callTool stA reqSearchA cenvSlowOk).snd "a").map
      McpServerStatus.status = some McpStatusKind.connected :=
  ⟨by decide, rfl, rfl⟩

/-- C8 (amended): tool-call and resource-read requests are bounded by
no timeout at all — the outcome of `callTool`/`readResource` is
entirely independent of how long the request takes (the provider's
configured timeout value is never consulted), and the connections map
(hence every provider's status) is unchanged either way. -/
theorem c8_no_request_timeout (st : McpState) (req : McpToolCallRequest)
    (rreq : McpResourceReadRequest)
    (r : Except String McpToolCallResult)
    (rr : Except String McpRawResourceContent) (d d' : Nat) :
    callTool st req { delay := d, result := r } =
      callTool st req { delay := d', result := r } ∧
    (callTool st req { delay := d, result := r }).snd.connections =
      st.connections ∧
    readResource st rreq { delay := d, result := rr } =
      readResource st rreq { delay := d', result := rr } ∧
    (readResource st rreq { delay := d, result := rr }).snd.connections =
      st.connections :=
  ⟨rfl, callTool_connections st req { delay := d, result := r }, rfl,
    readResource_connections st rreq { delay := d, result := rr }⟩

/-! ## Claim C9 -/

/-- C9: `callTool` and `readResource` never mutate the connections map
(so a connected provider's stored status, capability lists and
timestamps are untouched, on success and on failure alike), and a
transport-level failure during either operation surfaces an error to
the caller while the provider's queried status stays exactly what it
was — no transition to `error`. -/
theorem c9_router_no_state_mutation (st : McpState)
    (req : McpToolCallRequest) (rreq : McpResourceReadRequest)
    (cenv : McpToolCallEnv) (renv : McpReadEnv)
    (conn connR : McpClientConnection) (ce re : String)
    (hget : mapGet st.connections req.serverId = some conn)
    (hconn : statusIsConnected conn.status.status = true)
    (hgetR : mapGet st.connections rreq.serverId = some connR)
    (hconnR : statusIsConnected connR.status.status = true)
    (hce : cenv.result = Except.error ce)
    (hre : renv.result = Except.error re) :
    (∀ env : McpToolCallEnv,
      (callTool st req env).snd.connections = st.connections) ∧
    (∀ env : McpReadEnv,
      (readResource st rreq env).snd.connections = st.connections) ∧
    (∃ m, (callTool st req cenv).fst = Except.error m) ∧
    getServerStatus (callTool st req cenv).snd req.serverId =
      some conn.status ∧
    (∃ m, (readResource st rreq renv).fst = Except.error m) ∧
    getServerStatus (readResource st rreq renv).snd rreq.serverId =
      some connR.status := by
  refine ⟨fun env => callTool_connections st req env,
    fun env => readResource_connections st rreq env,
    ⟨_, callTool_error_of_request_error st req cenv conn ce hget hconn
      hce⟩, ?_,
    ⟨_, readResource_error_of_request_error st rreq renv connR re hgetR
      hconnR hre⟩, ?_⟩
  · unfold getServerStatus
    rw [callTool_connections, hget]
    rfl
  · unfold getServerStatus
    rw [readResource_connections, hgetR]
    rfl

/-- C9 witness: the theorem applied to the connected provider "a" of
`stA` with transport-failing call and read outcomes. -/
theorem c9_witness :
    (∃ m, (callTool stA reqSearchA cenvBoom).fst = Except.error m) ∧
    getServerStatus (callTool stA reqSearchA cenvBoom).snd "a" =
      some connA.status ∧
    (∃ m, (readResource stA rreqA renvBoom).fst = Except.error m) ∧
    getServerStatus (readResource stA rreqA renvBoom).snd "a" =
      some connA.status := by
  have h := c9_router_no_state_mutation stA reqSearchA rreqA cenvBoom
    renvBoom connA connA "boom" "boom" rfl rfl rfl rfl rfl rfl
  exact ⟨h.2.2.1, h.2.2.2.1, h.2.2.2.2.1, h.2.2.2.2.2⟩

/-! ## Claim C10 -/

/-- C10: in every reachable service state, every Connection stored in
the provider-id map is in `connected` status; consequently the
per-provider status query yields either a `connected` status or
nothing; and a connect attempt that returns an `error` status leaves no
map entry for that provider. -/
theorem c10_only_connected_stored (st : McpState) (h : McpReachable st) :
    (∀ p ∈ st.connections,
      p.snd.status.status = McpStatusKind.connected) ∧
    (∀ (serverId : String) (s : McpServerStatus),
      getServerStatus st serverId = some s →
      s.status = McpStatusKind.connected) ∧
    (∀ (config : McpServerConfig) (env : McpConnectEnv),
      (connectToServer st config env).fst.status = McpStatusKind.error →
      mapGet (connectToServer st config env).snd.connections config.id =
        none) := by
  have hinv := stateInv_of_reachable h
  refine ⟨?_, ?_, ?_⟩
  · intro p hp
    exact statusIsConnected_iff.mp (hinv p hp).1
  · intro serverId s hs
    unfold getServerStatus at hs
    cases hget : mapGet st.connections serverId with
    | none => rw [hget] at hs; exact absurd hs (by simp)
    | some conn =>
      rw [hget] at hs
      have hsc : conn.status = s := by simpa using hs
      rw [← hsc]
      exact statusIsConnected_iff.mp
        (hinv _ (mem_of_mapGet_eq_some hget)).1
  · intro config env herr
    rw [connectToServer_connections_of_error st config env herr]
    exact mapGet_mapDelete_self _ _

/-- C10 witness: in the reachable state `stA`, the reported status of
"a" is `connected`, and a failing connect attempt (for the rejected
websocket provider "w") stores no entry. -/
theorem c10_witness :
    statusA.status = McpStatusKind.connected ∧
    mapGet (connectToServer stA cfgW envConnectB).snd.connections "w" =
      none := by
  have h := c10_only_connected_stored stA stA_reachable
  exact ⟨h.2.1 "a" statusA rfl, h.2.2 cfgW envConnectB rfl⟩

end LibreWebUI

